import Mathlib

/-!
Shallow embedding of the subscription-payment core of the `nodeapi` backend
(`src/controllers/paymentController.js`, coupon validation in
`src/unnamed/part_003`, coupon schema in `src/models/Code.js`).

JavaScript `Date` values are represented structurally as
(fullYear, month 0-11, day of month, milliseconds within the day); for valid
calendar dates the lexicographic order on this tuple coincides with the
epoch-milliseconds order that the `>` comparisons in the source use.
`setFullYear(getFullYear() + 1)` keeps month/day/time-of-day and normalizes
the single overflow case Feb 29 -> Mar 1 when the target year is not a leap
year, exactly as the JS engine does.

Each request handler reads the wall clock (`new Date()`); the embedding passes
the request-processing instant `now` explicitly.  Database state is the user
record (for the subscription state machine) or a list of coupon records (for
the coupon store, with `findOne` returning the first match).
-/

namespace NodeApi

/-- Structural JavaScript date: full year, month (0-11), day of month (1-31),
milliseconds within the day. -/
structure JsDate where
  year : Int
  month : Nat
  day : Nat
  ms : Nat
deriving DecidableEq, Repr

/-- JS leap-year rule used by `Date` day-overflow normalization. -/
def isLeapYear (y : Int) : Bool :=
  (y % 4 == 0 && y % 100 != 0) || y % 400 == 0

/-- `d2 > d1` on JS dates compares epoch milliseconds; on valid structural
dates this is the lexicographic order on (year, month, day, ms). -/
def JsDate.lt (a b : JsDate) : Bool :=
  a.year < b.year ||
    (a.year == b.year && (a.month < b.month ||
      (a.month == b.month && (a.day < b.day ||
        (a.day == b.day && a.ms < b.ms)))))

/-- `expiryDate.setFullYear(expiryDate.getFullYear() + 1)`: same month, day and
time of day one year later, with Feb 29 normalized to Mar 1 when the target
year is not a leap year. -/
def JsDate.addOneYear (d : JsDate) : JsDate :=
  let y := d.year + 1
  if d.month == 1 && d.day == 29 && !isLeapYear y then
    { year := y, month := 2, day := 1, ms := d.ms }
  else
    { d with year := y }

/-- `subscriptionStatus` enumeration from the user schema. -/
inductive SubStatus where
  | none
  | active
  | expired
deriving DecidableEq, Repr

/-- Subscription-relevant subset of the user record. -/
structure UserRec where
  paymentStatus : Bool
  paymentDate : Option JsDate
  subscriptionExpiryDate : Option JsDate
  subscriptionStatus : SubStatus
deriving DecidableEq, Repr

/-- `checkSubscriptionExpiry` (paymentController.js lines 17-29): if the status
is `active` and an expiry date is present and `now` is strictly past it, the
record is saved with `subscriptionStatus = "expired"` and
`paymentStatus = false`; returns the updated record and the boolean result. -/
def checkSubscriptionExpiry (now : JsDate) (user : UserRec) : UserRec × Bool :=
  match user.subscriptionStatus, user.subscriptionExpiryDate with
  | SubStatus.active, some expiry =>
      if JsDate.lt expiry now then
        ({ user with subscriptionStatus := SubStatus.expired,
                     paymentStatus := false }, true)
      else
        (user, false)
  | _, _ => (user, false)

/-- `getEffectivePaymentStatus` (paymentController.js lines 32-50): pure
read-time entitlement evaluation. -/
def getEffectivePaymentStatus (now : JsDate) (user : UserRec) : Bool :=
  if !user.paymentStatus || user.subscriptionStatus == SubStatus.none then
    false
  else if user.subscriptionStatus == SubStatus.expired then
    false
  else
    match user.subscriptionStatus, user.subscriptionExpiryDate with
    | SubStatus.active, some expiry =>
        if JsDate.lt expiry now then false else true
    | _, _ => user.paymentStatus

/-- The field updates applied on a successful payment (shared by the webhook
`checkout.session.completed` branch, lines 252-261, and the verify-session
fresh-payment branch, lines 399-409): `paymentStatus = true`,
`paymentDate = now`, `subscriptionExpiryDate = now + 1 year`,
`subscriptionStatus = "active"`. -/
def recordSuccessfulPayment (now : JsDate) (user : UserRec) : UserRec :=
  { user with
    paymentStatus := true,
    paymentDate := some now,
    subscriptionExpiryDate := some (JsDate.addOneYear now),
    subscriptionStatus := SubStatus.active }

/-- `stripeWebhook` handling of a `checkout.session.completed` event whose
metadata resolves to an existing user (lines 244-265).  The session identifier
is carried by the event but never consulted: the full one-year extension is
re-applied on every delivery. -/
def stripeWebhookCompleted (now : JsDate) (sessionId : String)
    (user : UserRec) : UserRec :=
  recordSuccessfulPayment now user

/-- `verifySession` on a session the provider reports as paid, for an existing
user (lines 393-415): apply the payment transition only when
`paymentStatus` is false, then run `checkSubscriptionExpiry` and return the
updated record together with the effective entitlement sent to the client. -/
def verifySessionPaid (now : JsDate) (user : UserRec) : UserRec × Bool :=
  let user1 :=
    if !user.paymentStatus then recordSuccessfulPayment now user else user
  let user2 := (checkSubscriptionExpiry now user1).1
  (user2, getEffectivePaymentStatus now user2)

/-- `getPaymentStatus` core for an existing user (lines 321-352): materialize
expiry, then evaluate effective entitlement. -/
def getPaymentStatusRead (now : JsDate) (user : UserRec) : UserRec × Bool :=
  let user1 := (checkSubscriptionExpiry now user).1
  (user1, getEffectivePaymentStatus now user1)

/-- Discount-code record (`src/models/Code.js`): `discount` is a percentage
number defaulting to 0, `usedBy`/`usedAt` default to null. -/
structure CodeRec where
  code : String
  description : String
  discount : ℚ
  isActive : Bool
  usedBy : Option String
  usedAt : Option JsDate
deriving DecidableEq, Repr

/-- ASCII lower-casing of one character, the case folding the `i` regex flag
performs on the coupon codes in play. -/
def lowerChar (c : Char) : Char :=
  if c.isUpper then Char.ofNat (c.toNat + 32) else c

/-- Whitespace removed by JavaScript `String.prototype.trim`. -/
def isJsSpace (c : Char) : Bool :=
  c == ' ' || c == '\t' || c == '\n' || c == '\r'

/-- `trim()`: drop leading and trailing whitespace. -/
def trimChars (cs : List Char) : List Char :=
  ((cs.dropWhile isJsSpace).reverse.dropWhile isJsSpace).reverse

/-- Case-insensitive full-string match of a stored code against the trimmed
query, as performed by `new RegExp("^" + code.trim() + "$", "i")`. -/
def ciMatch (stored query : String) : Bool :=
  stored.data.map lowerChar == (trimChars query.data).map lowerChar

/-- `Code.findOne({ code: /^q$/i, isActive: true })`: first stored record whose
code matches case-insensitively and whose `isActive` flag is true. -/
def findActiveCode (store : List CodeRec) (query : String) :
    Option CodeRec :=
  store.find? (fun c => ciMatch c.code query && c.isActive)

/-- Outcomes of `validateCoupon` (`src/unnamed/part_003`), one per distinct
HTTP response the handler can produce. -/
inductive ValidateResult where
  /-- 400 "Coupon code is required" -/
  | missingCode
  /-- 404 "Invalid or inactive coupon code" -/
  | notFound
  /-- 400 "This coupon code has already been used" -/
  | alreadyUsed
  /-- 200 with the coupon details -/
  | ok (code : String) (discount : ℚ) (description : String)
deriving DecidableEq, Repr

/-- `validateCoupon` (`src/unnamed/part_003` lines 12-76): reject a missing or
empty code, look up the first active case-insensitive match, reject it when
both `usedBy` and `usedAt` are set, otherwise return the coupon details. -/
def validateCoupon (store : List CodeRec) (body : Option String) :
    ValidateResult :=
  match body with
  | Option.none => ValidateResult.missingCode
  | Option.some code =>
      if code = "" then ValidateResult.missingCode
      else
        match findActiveCode store code with
        | Option.none => ValidateResult.notFound
        | Option.some c =>
            if c.usedBy.isSome && c.usedAt.isSome then
              ValidateResult.alreadyUsed
            else
              ValidateResult.ok c.code c.discount c.description

/-- Outcome of the coupon-application step of `createCheckoutSession`
(paymentController.js lines 81-115). -/
inductive CheckoutResult where
  /-- 400 "Invalid or inactive coupon code" -/
  | invalidCoupon
  /-- proceed with the computed discount and final amounts -/
  | ok (discountAmount finalAmount : ℚ)
deriving DecidableEq, Repr

/-- Coupon-application step of `createCheckoutSession` (lines 81-115): with no
coupon the amount passes through; otherwise the first active case-insensitive
match must have a truthy (non-zero) `discount`, and then
`discountAmount = amount * discount / 100` (no rounding),
`finalAmount = amount - discountAmount` clamped at 0. -/
def applyCoupon (store : List CodeRec) (amount : ℚ)
    (couponCode : Option String) : CheckoutResult :=
  match couponCode with
  | Option.none => CheckoutResult.ok 0 amount
  | Option.some code =>
      match findActiveCode store code with
      | Option.some c =>
          if c.discount ≠ 0 then
            let discountAmount := amount * c.discount / 100
            let finalAmount := amount - discountAmount
            let finalAmount := if finalAmount < 0 then 0 else finalAmount
            CheckoutResult.ok discountAmount finalAmount
          else
            CheckoutResult.invalidCoupon
      | Option.none => CheckoutResult.invalidCoupon

/-- `unit_amount: Math.round(finalAmount * 100)` (line 163): the only rounding
in the checkout path, applied when converting the final amount to cents for
the provider line item. -/
def unitAmount (finalAmount : ℚ) : ℤ :=
  round (finalAmount * 100)

/-- One year after an instant is never at or before that instant: the year
component strictly increases, which decides the lexicographic comparison. -/
theorem lt_addOneYear_self (d : JsDate) :
    JsDate.lt (JsDate.addOneYear d) d = false := by
  simp only [JsDate.addOneYear, JsDate.lt]
  split <;> simp

/-- C1: the claim demands that redelivering the same
`checkout.session.completed` event (same session identifier) leaves
`subscriptionExpiryDate` unchanged; the webhook handler instead re-applies the
full one-year extension on every delivery, so a redelivery one day later moves
the expiry one day further out. -/
theorem C1_webhook_redelivery_moves_expiry :
    (stripeWebhookCompleted ⟨2024, 0, 16, 0⟩ "cs_1"
        (stripeWebhookCompleted ⟨2024, 0, 15, 0⟩ "cs_1"
          ⟨false, Option.none, Option.none, SubStatus.none⟩)).subscriptionExpiryDate ≠
      (stripeWebhookCompleted ⟨2024, 0, 15, 0⟩ "cs_1"
        ⟨false, Option.none, Option.none, SubStatus.none⟩).subscriptionExpiryDate := by
  decide

/-- C2: effective entitlement evaluation is a pure function of
(paymentStatus, subscriptionStatus, subscriptionExpiryDate, now): it ignores
every other field; it is false when paymentStatus is false or the status is
`none`; false when the status is `expired`; false when the status is `active`
with an expiry present and now strictly past it, regardless of the stored
flags; and true when paymentStatus holds, the status is `active`, an expiry is
present and now is not past it. -/
theorem C2_effective_entitlement_eval (now : JsDate) (u : UserRec) :
    (∀ v : UserRec, u.paymentStatus = v.paymentStatus →
        u.subscriptionStatus = v.subscriptionStatus →
        u.subscriptionExpiryDate = v.subscriptionExpiryDate →
        getEffectivePaymentStatus now u = getEffectivePaymentStatus now v) ∧
    ((u.paymentStatus = false ∨ u.subscriptionStatus = SubStatus.none) →
        getEffectivePaymentStatus now u = false) ∧
    (u.subscriptionStatus = SubStatus.expired →
        getEffectivePaymentStatus now u = false) ∧
    (∀ e, u.subscriptionStatus = SubStatus.active →
        u.subscriptionExpiryDate = some e → JsDate.lt e now = true →
        getEffectivePaymentStatus now u = false) ∧
    (∀ e, u.paymentStatus = true → u.subscriptionStatus = SubStatus.active →
        u.subscriptionExpiryDate = some e → JsDate.lt e now = false →
        getEffectivePaymentStatus now u = true) := by
  obtain ⟨p, pd, ed, ss⟩ := u
  refine ⟨?_, ?_, ?_, ?_, ?_⟩
  · rintro ⟨p', pd', ed', ss'⟩ h1 h2 h3
    simp only at h1 h2 h3
    subst h1; subst h2; subst h3
    rfl
  · rintro (h | h) <;> simp only at h <;> subst h <;>
      simp [getEffectivePaymentStatus]
  · intro h; simp only at h; subst h
    simp [getEffectivePaymentStatus]
  · intro e hss hed hlt
    simp only at hss hed; subst hss; subst hed
    cases p <;> simp [getEffectivePaymentStatus, hlt]
  · intro e hp hss hed hlt
    simp only at hp hss hed; subst hp; subst hss; subst hed
    simp [getEffectivePaymentStatus, hlt]

/-- Witness for C2 at a concrete record: active status, expiry in the future,
entitlement true. -/
theorem C2_effective_entitlement_eval_witness :
    getEffectivePaymentStatus ⟨2024, 6, 1, 0⟩
      ⟨true, some ⟨2024, 0, 15, 0⟩, some ⟨2025, 0, 15, 0⟩,
        SubStatus.active⟩ = true :=
  (C2_effective_entitlement_eval ⟨2024, 6, 1, 0⟩
      ⟨true, some ⟨2024, 0, 15, 0⟩, some ⟨2025, 0, 15, 0⟩,
        SubStatus.active⟩).2.2.2.2
    ⟨2025, 0, 15, 0⟩ rfl rfl rfl (by decide)

/-- C3: recording a successful payment (webhook `checkout.session.completed`,
or verify-after-redirect when the record does not yet reflect payment) sets
paymentStatus to true, paymentDate to the processing time, the expiry to one
year later and the status to `active`, and effective entitlement is true
immediately after. -/
theorem C3_record_payment_effect (now : JsDate) (sid : String) (u : UserRec) :
    (stripeWebhookCompleted now sid u).paymentStatus = true ∧
    (stripeWebhookCompleted now sid u).paymentDate = some now ∧
    (stripeWebhookCompleted now sid u).subscriptionExpiryDate =
      some (JsDate.addOneYear now) ∧
    (stripeWebhookCompleted now sid u).subscriptionStatus = SubStatus.active ∧
    getEffectivePaymentStatus now (stripeWebhookCompleted now sid u) = true ∧
    (u.paymentStatus = false →
      (verifySessionPaid now u).1 = stripeWebhookCompleted now sid u ∧
      (verifySessionPaid now u).2 = true) := by
  refine ⟨rfl, rfl, rfl, rfl, ?_, ?_⟩
  · simp [getEffectivePaymentStatus, stripeWebhookCompleted,
      recordSuccessfulPayment, lt_addOneYear_self]
  · intro h
    constructor
    · simp [verifySessionPaid, stripeWebhookCompleted, h,
        recordSuccessfulPayment, checkSubscriptionExpiry, lt_addOneYear_self]
    · simp [verifySessionPaid, stripeWebhookCompleted, h,
        recordSuccessfulPayment, checkSubscriptionExpiry,
        getEffectivePaymentStatus, lt_addOneYear_self]

/-- Witness for C3: a fresh user verified after redirect at a concrete instant
is reported entitled. -/
theorem C3_record_payment_effect_witness :
    (verifySessionPaid ⟨2024, 0, 15, 0⟩
      ⟨false, Option.none, Option.none, SubStatus.none⟩).2 = true :=
  ((C3_record_payment_effect ⟨2024, 0, 15, 0⟩ "cs_1"
      ⟨false, Option.none, Option.none, SubStatus.none⟩).2.2.2.2.2 rfl).2

/-- C4 counterexample: a reachable state in which paymentStatus has been reset
to false after a successful payment was recorded — pay on 2024-01-15, then
read the status one day past the one-year expiry: the lazy expiry
materialization sets paymentStatus back to false, contradicting the claim that
no operation ever resets it. -/
theorem C4_counterexample_payment_flag_reset :
    ((getPaymentStatusRead ⟨2025, 0, 16, 0⟩
        (stripeWebhookCompleted ⟨2024, 0, 15, 0⟩ "cs_1"
          ⟨false, Option.none, Option.none,
            SubStatus.none⟩)).1).paymentStatus = false := by
  decide

/-- C4 amended: once a successful payment has been recorded, the payment
transitions keep paymentStatus true, but the lazy expiry materialization on a
status read resets it to false exactly when the status is `active` with an
expiry present and strictly before now. -/
theorem C4_payment_flag_invariant (now : JsDate) (sid : String) (u : UserRec)
    (h : u.paymentStatus = true) :
    (stripeWebhookCompleted now sid u).paymentStatus = true ∧
    ((checkSubscriptionExpiry now u).1.paymentStatus = false ↔
      u.subscriptionStatus = SubStatus.active ∧
        ∃ e, u.subscriptionExpiryDate = some e ∧ JsDate.lt e now = true) ∧
    ((getPaymentStatusRead now u).1.paymentStatus = false ↔
      u.subscriptionStatus = SubStatus.active ∧
        ∃ e, u.subscriptionExpiryDate = some e ∧ JsDate.lt e now = true) := by
  obtain ⟨p, pd, ed, ss⟩ := u
  simp only at h; subst h
  refine ⟨rfl, ?_, ?_⟩ <;>
    cases ss <;> rcases ed with _ | e <;>
      simp [checkSubscriptionExpiry, getPaymentStatusRead] <;>
        cases hlt : JsDate.lt e now <;> simp [hlt]

/-- Witness for C4 amended: the expiry check resets the flag on a record whose
active subscription lies in the past. -/
theorem C4_payment_flag_invariant_witness :
    (checkSubscriptionExpiry ⟨2026, 0, 1, 0⟩
        ⟨true, some ⟨2024, 0, 1, 0⟩, some ⟨2025, 0, 1, 0⟩,
          SubStatus.active⟩).1.paymentStatus = false :=
  (C4_payment_flag_invariant ⟨2026, 0, 1, 0⟩ "cs_1"
      ⟨true, some ⟨2024, 0, 1, 0⟩, some ⟨2025, 0, 1, 0⟩,
        SubStatus.active⟩ rfl).2.1.mpr
    ⟨rfl, ⟨2025, 0, 1, 0⟩, rfl, by decide⟩

/-- C5 counterexample: a 50% coupon on base amount 99 — the code computes
`discountAmount = 99 * 50 / 100 = 49.5` with no rounding and
`finalAmount = 49.5`, whereas the claimed formula
`finalAmount = a - round(a*d/100)` would give `99 - 50 = 49`. -/
theorem C5_counterexample_no_rounding :
    applyCoupon [⟨"HALF", "", 50, true, Option.none, Option.none⟩] 99
        (some "HALF") = CheckoutResult.ok (99 / 2) (99 / 2) ∧
    (99 : ℚ) - ((round ((99 : ℚ) * 50 / 100) : ℤ) : ℚ) ≠ 99 / 2 := by
  constructor
  · have hfind : findActiveCode
        [⟨"HALF", "", 50, true, Option.none, Option.none⟩] "HALF" =
        some ⟨"HALF", "", 50, true, Option.none, Option.none⟩ := by decide
    simp only [applyCoupon, hfind]
    norm_num
  · rw [round_eq]
    norm_num

/-- C5 amended: for an active matched coupon with non-zero discount d in
[0,100] and base amount a ≥ 0, create-checkout-intent computes
`discountAmount = a * d / 100` exactly (no rounding) and
`finalAmount = max(0, a - discountAmount) = a - a*d/100 ≥ 0`; rounding happens
only later, when the final amount is converted to cents for the provider. -/
theorem C5_discount_computation (store : List CodeRec) (q : String) (a : ℚ)
    (c : CodeRec) (hfind : findActiveCode store q = some c) (ha : 0 ≤ a)
    (hd100 : c.discount ≤ 100) (hdne : c.discount ≠ 0) :
    applyCoupon store a (some q) =
      CheckoutResult.ok (a * c.discount / 100) (a - a * c.discount / 100) ∧
    0 ≤ a - a * c.discount / 100 := by
  have hge : 0 ≤ a - a * c.discount / 100 := by
    have h1 : a * c.discount / 100 ≤ a := by
      rw [div_le_iff₀ (by norm_num : (0 : ℚ) < 100)]
      exact mul_le_mul_of_nonneg_left hd100 ha
    linarith
  refine ⟨?_, hge⟩
  simp only [applyCoupon, hfind, if_pos hdne]
  rw [if_neg (not_lt.mpr hge)]

/-- Witness for C5 amended at the spec scenario: coupon SAVE20 (20%) on base
amount 100 yields discount 20 and final amount 80. -/
theorem C5_discount_computation_witness :
    applyCoupon [⟨"SAVE20", "", 20, true, Option.none, Option.none⟩] 100
      (some "SAVE20") = CheckoutResult.ok 20 80 := by
  have h := C5_discount_computation
    [⟨"SAVE20", "", 20, true, Option.none, Option.none⟩] "SAVE20" 100
    ⟨"SAVE20", "", 20, true, Option.none, Option.none⟩
    (by decide) (by norm_num) (by norm_num) (by norm_num)
  rw [h.1]
  norm_num

/-- C6 counterexample: a user whose record reflects payment
(paymentStatus true, status active) but whose expiry lies in the past —
verify-after-redirect on a paid session is not a no-op on the subscription
fields: it flips subscriptionStatus to `expired` (and resets paymentStatus),
contradicting the claim that the fields are left unchanged. -/
theorem C6_counterexample_not_noop :
    (verifySessionPaid ⟨2026, 0, 1, 0⟩
        ⟨true, some ⟨2024, 0, 1, 0⟩, some ⟨2025, 0, 1, 0⟩,
          SubStatus.active⟩).1 =
      ⟨false, some ⟨2024, 0, 1, 0⟩, some ⟨2025, 0, 1, 0⟩,
        SubStatus.expired⟩ := by
  decide

/-- C6 amended: when the local record already reflects payment, verify after
redirect never changes paymentDate or subscriptionExpiryDate (in particular it
never extends expiry) and returns the effective entitlement of the stored
record; and unless the subscription is past expiry at call time — in which
case the call only materializes the expired state — it is a full no-op. -/
theorem C6_verify_paid_noop (now : JsDate) (u : UserRec)
    (h : u.paymentStatus = true) :
    (verifySessionPaid now u).1.paymentDate = u.paymentDate ∧
    (verifySessionPaid now u).1.subscriptionExpiryDate =
      u.subscriptionExpiryDate ∧
    (verifySessionPaid now u).2 =
      getEffectivePaymentStatus now (verifySessionPaid now u).1 ∧
    ((u.subscriptionStatus = SubStatus.active →
        ∀ e, u.subscriptionExpiryDate = some e → JsDate.lt e now = false) →
      (verifySessionPaid now u).1 = u ∧
      (verifySessionPaid now u).2 = getEffectivePaymentStatus now u) := by
  obtain ⟨p, pd, ed, ss⟩ := u
  simp only at h; subst h
  have hverify : (verifySessionPaid now ⟨true, pd, ed, ss⟩).1 =
      (checkSubscriptionExpiry now ⟨true, pd, ed, ss⟩).1 := by
    simp [verifySessionPaid]
  refine ⟨?_, ?_, ?_, ?_⟩
  · rw [hverify]
    cases ss <;> rcases ed with _ | e <;>
      simp [checkSubscriptionExpiry] <;>
        cases hlt : JsDate.lt e now <;> simp [hlt]
  · rw [hverify]
    cases ss <;> rcases ed with _ | e <;>
      simp [checkSubscriptionExpiry] <;>
        cases hlt : JsDate.lt e now <;> simp [hlt]
  · simp [verifySessionPaid]
  · intro hcond
    have hnoop : (checkSubscriptionExpiry now ⟨true, pd, ed, ss⟩).1 =
        ⟨true, pd, ed, ss⟩ := by
      cases ss <;> rcases ed with _ | e <;> simp [checkSubscriptionExpiry]
      rw [hcond rfl e rfl]
      simp
    rw [hverify, hnoop]
    refine ⟨rfl, ?_⟩
    simp [verifySessionPaid, hnoop]

/-- Witness for C6 amended: an active, unexpired paid record is returned
unchanged by verify after redirect. -/
theorem C6_verify_paid_noop_witness :
    (verifySessionPaid ⟨2024, 6, 1, 0⟩
        ⟨true, some ⟨2024, 0, 15, 0⟩, some ⟨2025, 0, 15, 0⟩,
          SubStatus.active⟩).1 =
      ⟨true, some ⟨2024, 0, 15, 0⟩, some ⟨2025, 0, 15, 0⟩,
        SubStatus.active⟩ :=
  ((C6_verify_paid_noop ⟨2024, 6, 1, 0⟩
      ⟨true, some ⟨2024, 0, 15, 0⟩, some ⟨2025, 0, 15, 0⟩,
        SubStatus.active⟩ rfl).2.2.2
    (by intro _ e he; injection he with he; subst he; decide)).1

/-- C7 counterexample: a stored but inactive code (`SAVE20`, isActive false)
fails with exactly the same NotFound outcome (404, "Invalid or inactive coupon
code") as a code with no stored record at all — there is no distinct Inactive
error, because the lookup filters on `isActive: true`. -/
theorem C7_counterexample_no_inactive_error :
    validateCoupon [⟨"SAVE20", "", 20, false, Option.none, Option.none⟩]
        (some "SAVE20") = ValidateResult.notFound ∧
    validateCoupon [⟨"SAVE20", "", 20, false, Option.none, Option.none⟩]
        (some "NOPE") = ValidateResult.notFound := by
  decide

/-- C7 amended: coupon validation looks the code up case-insensitively (the
outcome depends on the query only through its trimmed, case-folded form), and
fails with the single NotFound outcome (404, "Invalid or inactive coupon
code") whenever no stored record both matches case-insensitively and has
isActive true — covering both a missing record and an inactive match, with no
distinct Inactive error. -/
theorem C7_validate_lookup (store : List CodeRec) (q q' : String)
    (hq : q ≠ "") (hq' : q' ≠ "")
    (hci : (trimChars q.data).map lowerChar =
      (trimChars q'.data).map lowerChar) :
    validateCoupon store (some q) = validateCoupon store (some q') ∧
    ((∀ c ∈ store, ¬(ciMatch c.code q = true ∧ c.isActive = true)) →
      validateCoupon store (some q) = ValidateResult.notFound) := by
  constructor
  · have hfind : findActiveCode store q = findActiveCode store q' := by
      unfold findActiveCode
      congr 1
      funext c
      simp [ciMatch, hci]
    simp [validateCoupon, hq, hq', hfind]
  · intro hnone
    have hfind : findActiveCode store q = Option.none := by
      unfold findActiveCode
      rw [List.find?_eq_none]
      intro c hc
      simp only [Bool.and_eq_true]
      intro hmatch
      exact hnone c hc ⟨hmatch.1, hmatch.2⟩
    simp [validateCoupon, hq, hfind]

/-- Witness for C7 amended: querying `save20` against a store whose only
record is the inactive `SAVE20` yields NotFound. -/
theorem C7_validate_lookup_witness :
    validateCoupon [⟨"SAVE20", "", 20, false, Option.none, Option.none⟩]
      (some "save20") = ValidateResult.notFound :=
  (C7_validate_lookup
      [⟨"SAVE20", "", 20, false, Option.none, Option.none⟩]
      "save20" "SAVE20" (by decide) (by decide) (by decide)).2 (by decide)

/-- C8 counterexample: the single-use binding is enforced by the validation
path — an active stored code with both usedBy and usedAt set is rejected with
the AlreadyUsed outcome (400, "This coupon code has already been used"),
while the same record with the two fields null validates successfully, so the
outcome does depend on usedBy/usedAt. -/
theorem C8_counterexample_single_use_enforced :
    validateCoupon
        [⟨"SAVE20", "", 20, true, some "u1", some ⟨2024, 0, 1, 0⟩⟩]
        (some "SAVE20") = ValidateResult.alreadyUsed ∧
    validateCoupon [⟨"SAVE20", "", 20, true, Option.none, Option.none⟩]
        (some "SAVE20") = ValidateResult.ok "SAVE20" 20 "" := by
  decide

/-- C8 amended: for a matched active code, validation rejects with
AlreadyUsed exactly when both usedBy and usedAt are set, and returns the
coupon details otherwise — the single-use binding is enforced by the
validation path. -/
theorem C8_single_use_enforcement (store : List CodeRec) (q : String)
    (c : CodeRec) (hq : q ≠ "") (hfind : findActiveCode store q = some c) :
    validateCoupon store (some q) =
      (if c.usedBy.isSome && c.usedAt.isSome then ValidateResult.alreadyUsed
       else ValidateResult.ok c.code c.discount c.description) := by
  simp [validateCoupon, hq, hfind]

/-- Witness for C8 amended: a used active coupon is rejected. -/
theorem C8_single_use_enforcement_witness :
    validateCoupon
        [⟨"PROMO10", "ten", 10, true, some "u7", some ⟨2024, 2, 3, 0⟩⟩]
        (some "PROMO10") = ValidateResult.alreadyUsed := by
  have h := C8_single_use_enforcement
    [⟨"PROMO10", "ten", 10, true, some "u7", some ⟨2024, 2, 3, 0⟩⟩]
    "PROMO10" ⟨"PROMO10", "ten", 10, true, some "u7", some ⟨2024, 2, 3, 0⟩⟩
    (by decide) (by decide)
  simpa using h

/-- C9: from the materialized expired state (status `expired`, paymentStatus
false after the expiry check), verify-after-redirect on any previously paid
session re-applies the full payment transition: the status becomes `active`,
the expiry becomes now + 1 year, and the reported entitlement is true —
a fresh year of access with no new payment. -/
theorem C9_expired_verify_regrants (now : JsDate) (u : UserRec)
    (h1 : u.subscriptionStatus = SubStatus.expired)
    (h2 : u.paymentStatus = false) :
    (verifySessionPaid now u).1 = recordSuccessfulPayment now u ∧
    (verifySessionPaid now u).1.subscriptionStatus = SubStatus.active ∧
    (verifySessionPaid now u).1.subscriptionExpiryDate =
      some (JsDate.addOneYear now) ∧
    (verifySessionPaid now u).2 = true := by
  have hrec : (verifySessionPaid now u).1 = recordSuccessfulPayment now u := by
    simp [verifySessionPaid, h2, recordSuccessfulPayment,
      checkSubscriptionExpiry, lt_addOneYear_self]
  refine ⟨hrec, ?_, ?_, ?_⟩
  · rw [hrec]; rfl
  · rw [hrec]; rfl
  · simp [verifySessionPaid, h2, recordSuccessfulPayment,
      checkSubscriptionExpiry, getEffectivePaymentStatus, lt_addOneYear_self]

/-- Witness for C9: a concrete expired record is re-granted a year of
entitlement by verify after redirect. -/
theorem C9_expired_verify_regrants_witness :
    (verifySessionPaid ⟨2025, 3, 1, 0⟩
        ⟨false, some ⟨2024, 0, 15, 0⟩, some ⟨2025, 0, 15, 0⟩,
          SubStatus.expired⟩).1.subscriptionExpiryDate =
      some (JsDate.addOneYear ⟨2025, 3, 1, 0⟩) :=
  (C9_expired_verify_regrants ⟨2025, 3, 1, 0⟩
      ⟨false, some ⟨2024, 0, 15, 0⟩, some ⟨2025, 0, 15, 0⟩,
        SubStatus.expired⟩ rfl rfl).2.2.1

/-- C10: an active stored coupon whose discount is exactly 0 makes
create-checkout-intent fail with InvalidArgument (400, "Invalid or inactive
coupon code"), because the coupon-applied branch requires a truthy (non-zero)
discount value. -/
theorem C10_zero_discount_rejected (store : List CodeRec) (a : ℚ) (q : String)
    (c : CodeRec) (hfind : findActiveCode store q = some c)
    (hd : c.discount = 0) :
    applyCoupon store a (some q) = CheckoutResult.invalidCoupon := by
  simp [applyCoupon, hfind, hd]

/-- Witness for C10: a zero-discount active coupon is rejected at checkout. -/
theorem C10_zero_discount_rejected_witness :
    applyCoupon [⟨"FREE", "", 0, true, Option.none, Option.none⟩] 100
      (some "FREE") = CheckoutResult.invalidCoupon :=
  C10_zero_discount_rejected
    [⟨"FREE", "", 0, true, Option.none, Option.none⟩] 100 "FREE"
    ⟨"FREE", "", 0, true, Option.none, Option.none⟩ (by decide) (by decide)

end NodeApi
